import Mathlib

/-!
# Verification of the Minimon game backend (`src/main.py`)

A shallow embedding of the FastAPI/MongoDB backend.  Each MongoDB collection
is modelled as a `List` of documents; the MongoDB operations used by the code
(`find_one`, `update_one` with and without `upsert`, `insert_one`,
`delete_one`, `delete_many`, `$push`, `$pull`, `$set`) are modelled with their
documented semantics: `find_one` returns the first matching document,
`update_one` updates the first matching document, `$pull` removes every
matching array element.

External effects are explicit parameters:
* time (`datetime.utcnow()`) is a `Nat` number of seconds; the several
  `utcnow()` calls made during a single request are modelled as one instant;
* the random generator behind `random.choices` is a function `Nat → Nat`
  giving the choice made for each character position;
* the SMTP server's behaviour is a `MailResult` (success, authentication
  failure, or other SMTP failure).
-/

namespace Minimon

/-- A document of the `verifications` collection
(`send_verification_email`, lines 217–226 of `src/main.py`). -/
structure VRecord where
  email : String
  code : String
  expires_at : Nat
  created_at : Nat
deriving DecidableEq, Repr

/-- Outcome of the SMTP session in `send_email` (lines 315–318):
success, `smtplib.SMTPAuthenticationError`, or another `smtplib.SMTPException`
carrying its message. -/
inductive MailResult where
  | ok
  | authError
  | smtpError (msg : String)
deriving DecidableEq, Repr

/-- An `HTTPException` as raised in the code: a status code and a detail
string. -/
structure HTTPError where
  status : Nat
  detail : String
deriving DecidableEq, Repr

/-- Response of the two issuance endpoints: either the success JSON body
(`message`, `code_sent: true`, `email`, `expires_in_minutes`) or a JSON error
response with a status code. -/
inductive VResponse where
  | success (email : String) (expires_in_minutes : Nat)
  | failure (status : Nat) (error : String)
deriving DecidableEq, Repr

/-- `find_one({"email": e})` on the `verifications` collection: the first
document whose `email` field equals `e`. -/
def findOneV (s : List VRecord) (e : String) : Option VRecord :=
  s.find? (fun r => r.email == e)

/-- `update_one({"email": e}, {"$set": {...all fields...}}, upsert=True)`:
replace the first document with `email = e` by `r`, or append `r` when no
document matches.  The `$set` in the code writes every field, so the
replacement is total. -/
def updateOneUpsertV : List VRecord → String → VRecord → List VRecord
  | [], _, r => [r]
  | x :: xs, e, r => if x.email == e then r :: xs else x :: updateOneUpsertV xs e r

/-- `delete_many({"expires_at": {"$lt": now}})` (line 430): remove every
document whose `expires_at` is strictly below `now`. -/
def purgeExpired (s : List VRecord) (now : Nat) : List VRecord :=
  s.filter (fun r => ! decide (r.expires_at < now))

/-- `delete_one({"email": e})` (line 440): remove the first document whose
`email` field equals `e`. -/
def deleteOneV : List VRecord → String → List VRecord
  | [], _ => []
  | x :: xs, e => if x.email == e then xs else x :: deleteOneV xs e

/-- The "at most one record per email" invariant of the `verifications`
collection. -/
def uniqueEmails (s : List VRecord) : Prop :=
  s.Pairwise (fun a b => a.email ≠ b.email)

/-- The alphabet `string.ascii_uppercase + string.digits` used by
`generate_code` (line 80). -/
def codeChars : List Char := "ABCDEFGHIJKLMNOPQRSTUVWXYZ0123456789".toList

/-- `generate_code(length)` (lines 79–80): one uniform choice per character
from `codeChars`; the random stream is the explicit argument `choose`. -/
def generate_code (length : Nat) (choose : Nat → Nat) : String :=
  String.mk ((List.range length).map (fun i => codeChars.getD (choose i % codeChars.length) 'A'))

/-- Character class `[a-zA-Z0-9._%+-]` of the local part of the e-mail
regex (line 84). -/
def isLocalChar (c : Char) : Bool :=
  c.isAlpha || c.isDigit || c == '.' || c == '_' || c == '%' || c == '+' || c == '-'

/-- Character class `[a-zA-Z0-9.-]` of the domain part of the e-mail regex. -/
def isDomainChar (c : Char) : Bool :=
  c.isAlpha || c.isDigit || c == '.' || c == '-'

/-- Split a character list at the first occurrence of `c`; `none` when `c`
does not occur. -/
def splitAtChar (c : Char) : List Char → Option (List Char × List Char)
  | [] => none
  | x :: xs =>
    if x == c then some ([], xs)
    else match splitAtChar c xs with
      | some (l, r) => some (x :: l, r)
      | none => none

/-- Split a character list at its last `'.'`: returns (part before the last
dot, part after it). -/
def splitAtLastDot (cs : List Char) : Option (List Char × List Char) :=
  match splitAtChar '.' cs.reverse with
  | some (revAfter, revBefore) => some (revBefore.reverse, revAfter.reverse)
  | none => none

/-- `validate_email` (lines 82–85): decides the anchored regex
`^[a-zA-Z0-9._%+-]+@[a-zA-Z0-9.-]+\.[a-zA-Z]\x7b2,\x7d$`.  Since neither
character class contains `'@'`, the match splits at the first `'@'`; since
`[a-zA-Z]` excludes `'.'`, the final dot of the pattern is the last dot of
the domain part. -/
def validate_email (s : String) : Bool :=
  match splitAtChar '@' s.toList with
  | none => false
  | some (loc, rest) =>
    if loc.isEmpty then false
    else if !loc.all isLocalChar then false
    else match splitAtLastDot rest with
      | none => false
      | some (dom, tld) =>
        !dom.isEmpty && dom.all isDomainChar && decide (2 ≤ tld.length) && tld.all Char.isAlpha

/-- Truthiness test `not GMAIL_USER` on the result of `os.getenv` (line 209):
true when the variable is unset or the empty string. -/
def envMissing : Option String → Bool
  | none => true
  | some s => s.isEmpty

/-- `create_email_template` (lines 325–421), abstracted to its dynamic
content: the HTML body is a fixed template interpolating the display name and
the verification code. -/
def create_email_template (username verification_code : String) : String :=
  "Hello " ++ username ++ "! Welcome to Minimon! Please use this verification code to complete your registration: " ++ verification_code ++ " This code expires in 10 minutes."

/-- `send_email` (lines 302–323).  The SMTP session's outcome is the
environment's behaviour, passed as `mail`; the message content does not
determine it.  `SMTPAuthenticationError` becomes a 500 `HTTPException` with
detail `"Gmail authentication failed"`, any other `SMTPException` a 500 with
detail `"Failed to send email: ..."`. -/
def send_email (mail : MailResult) (_gmail_user _gmail_password _to_email _subject _html_body : String) :
    Except HTTPError Unit :=
  match mail with
  | .ok => Except.ok ()
  | .authError => Except.error ⟨500, "Gmail authentication failed"⟩
  | .smtpError m => Except.error ⟨500, "Failed to send email: " ++ m⟩

/-- §7 error taxonomy relevant to the issuance endpoints. -/
inductive ErrKind where
  | invalidInput
  | configurationMissing
  | mailDeliveryFailed
deriving DecidableEq, Repr

/-- Classify an observed error response of an issuance endpoint into the §7
taxonomy: status 400 responses are `InvalidInput`; among the 500 responses,
exactly the configuration check produces the body
`"Email configuration not found"`, everything else is a mail-delivery
failure. -/
def classifyError (status : Nat) (msg : String) : ErrKind :=
  if status = 400 then ErrKind.invalidInput
  else if msg = "Email configuration not found" then ErrKind.configurationMissing
  else ErrKind.mailDeliveryFailed

/-- The observable classification of a `VResponse`: success payload, or
failure kind together with the HTTP status. -/
inductive RespKind where
  | success (email : String) (expires_in_minutes : Nat)
  | failure (kind : ErrKind) (status : Nat)
deriving DecidableEq, Repr

/-- Map a response to its classification. -/
def respKind : VResponse → RespKind
  | .success e m => RespKind.success e m
  | .failure st msg => RespKind.failure (classifyError st msg) st

/-- Whether a `VResponse` is the success body. -/
def isSuccess : VResponse → Bool
  | .success _ _ => true
  | .failure _ _ => false

/-- `/send-verification-email` (`send_verification_email`, lines 158–244),
from the point where the JSON body has been decoded to a string `email` and
an optional string `username` (the content-type / JSON / object / presence
checks of lines 164–196 are the domain restriction of these inputs).
Branches in source order: e-mail format check (400), configuration check
(500), code generation, upsert of the verification record, mail send; an
`HTTPException` escaping `send_email` is caught by the generic
`except Exception` handler (line 242) and re-wrapped as
`"Unexpected error: " + str(e)`, where `str` of an `HTTPException` is
`"<status>: <detail>"`. -/
def send_verification_email (gu gp : Option String) (email : String)
    (username : Option String) (choose : Nat → Nat) (now : Nat)
    (mail : MailResult) (s : List VRecord) : VResponse × List VRecord :=
  if validate_email email = false then
    (.failure 400 "Invalid email format", s)
  else if envMissing gu || envMissing gp then
    (.failure 500 "Email configuration not found", s)
  else
    let verification_code := generate_code 8 choose
    let s' := updateOneUpsertV s email
      { email := email, code := verification_code,
        expires_at := now + 600, created_at := now }
    let uname := username.getD "Adventurer"
    let html_body := create_email_template uname verification_code
    match send_email mail (gu.getD "") (gp.getD "") email
        "Email Verification - Minimon Account" html_body with
    | .ok _ => (.success email 10, s')
    | .error e =>
      (.failure 500 ("Unexpected error: " ++ toString e.status ++ ": " ++ e.detail), s')

/-- `/send-verification-email-v2` (`send_verification_email_v2`, lines
246–300): the Pydantic-model variant.  Same pipeline, but the display name
defaults via Python's `or` (`data.username or "Adventurer"`, so `None` and
`""` both default), and an `HTTPException` from `send_email` is caught by the
dedicated `except HTTPException` handler (line 296) and returned as
`{"error": e.detail}` with its own status. -/
def send_verification_email_v2 (gu gp : Option String) (email : String)
    (username : Option String) (choose : Nat → Nat) (now : Nat)
    (mail : MailResult) (s : List VRecord) : VResponse × List VRecord :=
  if validate_email email = false then
    (.failure 400 "Invalid email format", s)
  else if envMissing gu || envMissing gp then
    (.failure 500 "Email configuration not found", s)
  else
    let verification_code := generate_code 8 choose
    let s' := updateOneUpsertV s email
      { email := email, code := verification_code,
        expires_at := now + 600, created_at := now }
    let uname := match username with
      | some u => if u.isEmpty then "Adventurer" else u
      | none => "Adventurer"
    let html_body := create_email_template uname verification_code
    match send_email mail (gu.getD "") (gp.getD "") email
        "Email Verification - Minimon Account" html_body with
    | .ok _ => (.success email 10, s')
    | .error e => (.failure e.status e.detail, s')

/-- Success body of `/codes/`. -/
structure CodePayload where
  email : String
  code : String
  expires_in_minutes : Nat
  created_at : Nat
deriving DecidableEq, Repr

/-- `/codes/` (`get_verification_code`, lines 423–457).  Step 1: global
`delete_many` of every expired record; step 2: `find_one` by email, 404 when
absent; step 3: race-guard re-check of `expires_at`, 410 plus `delete_one`
when expired; step 4: remaining minutes
`int((expires_at - now).total_seconds() / 60)`.  The second component is the
`verifications` collection after the call. -/
def get_verification_code (s : List VRecord) (email : String) (now : Nat) :
    Except HTTPError CodePayload × List VRecord :=
  let s1 := purgeExpired s now
  match findOneV s1 email with
  | none => (.error ⟨404, "No verification code found for this email"⟩, s1)
  | some v =>
    if v.expires_at < now then
      (.error ⟨410, "Verification code has expired"⟩, deleteOneV s1 email)
    else
      (.ok { email := email, code := v.code,
             expires_in_minutes := (v.expires_at - now) / 60,
             created_at := v.created_at }, s1)

/-- A document of the `users` collection: the `SignupModel` fields stored
verbatim by `insert_one(data.dict())` (line 94). -/
structure Account where
  email : String
  username : String
  password : String
  gender : String
deriving DecidableEq, Repr

/-- Response of `/signup`. -/
inductive SignupResponse where
  | ok (message : String)
  | failure (status : Nat) (error : String)
deriving DecidableEq, Repr

/-- `/signup` (`signup`, lines 88–95): `find_one` by email (400 "Email
already exists"), then `find_one` by username (400 "Username already
exists"), then `insert_one` of the record verbatim. -/
def signup (users : List Account) (data : Account) : SignupResponse × List Account :=
  if (users.find? (fun u => u.email == data.email)).isSome then
    (.failure 400 "Email already exists", users)
  else if (users.find? (fun u => u.username == data.username)).isSome then
    (.failure 400 "Username already exists", users)
  else
    (.ok "Signup successful", users ++ [data])

/-- A creature document inside a roster's `pokemons` array (line 135). -/
structure Pokemon where
  name : String
  level : Int
  health : Int
  power : Int
deriving DecidableEq, Repr

/-- A document of the `pokemons` collection: one roster per username. -/
structure Roster where
  username : String
  pokemons : List Pokemon
deriving DecidableEq, Repr

/-- A document of the `games` collection (lines 105–109). -/
structure Game where
  code : String
  players : List String
  status : String
deriving DecidableEq, Repr

/-- `find_one({"code": c})` on the `games` collection. -/
def findOneGame (gs : List Game) (c : String) : Option Game :=
  gs.find? (fun g => g.code == c)

/-- `update_one({"code": c}, {"$set": {"status": "ended"}})` (line 117):
set `status` on the first matching game. -/
def setStatusEnded : List Game → String → List Game
  | [], _ => []
  | g :: gs, c =>
    if g.code == c then { g with status := "ended" } :: gs
    else g :: setStatusEnded gs c

/-- `find_one({"username": u})` on the `pokemons` collection. -/
def findRosterDoc (rs : List Roster) (u : String) : Option Roster :=
  rs.find? (fun r => r.username == u)

/-- The roster read used by `/pokemons/{username}` (line 129) and inside
`end_game` (line 122): `entry["pokemons"] if entry else []`. -/
def rosterOf (rs : List Roster) (u : String) : List Pokemon :=
  match findRosterDoc rs u with
  | some entry => entry.pokemons
  | none => []

/-- Response of `/end_game`: 404, or the success body, optionally with the
`pokemons` map (player identity paired with that player's roster, in player
order). -/
inductive EndGameResult where
  | notFound
  | ended (pokemons : Option (List (String × List Pokemon)))
deriving DecidableEq, Repr

/-- `/end_game` (`end_game`, lines 112–124): `find_one` by code (404 when
absent), unconditional `$set` of `status` to `"ended"`, and when
`show_pokemon` the per-player roster map built from the game document that
was read before the update. -/
def end_game (games : List Game) (rosters : List Roster) (code : String)
    (show_pokemon : Bool) : EndGameResult × List Game :=
  match findOneGame games code with
  | none => (.notFound, games)
  | some game =>
    let games' := setStatusEnded games code
    if show_pokemon then
      (.ended (some (game.players.map (fun u => (u, rosterOf rosters u)))), games')
    else
      (.ended none, games')

/-- `$pull {"pokemons": {"name": name}}` applied by
`update_one({"username": u}, ...)` (lines 142–145): on the first document
matching the username, remove every array element whose `name` equals the
given name; no `upsert`, so no matching document means no change. -/
def pullByName : List Roster → String → String → List Roster
  | [], _, _ => []
  | r :: rs, u, name =>
    if r.username == u then
      { r with pokemons := r.pokemons.filter (fun p => !(p.name == name)) } :: rs
    else r :: pullByName rs u name

/-- `/pokemons/remove` (`remove_pokemon`, lines 140–146): always answers
`"Pokemon removed"`. -/
def remove_pokemon (rosters : List Roster) (username pokemon : String) :
    String × List Roster :=
  ("Pokemon removed", pullByName rosters username pokemon)

/-! ## Lemmas about the verification store -/

theorem findOneV_cons_pos (x : VRecord) (xs : List VRecord) (e : String)
    (h : x.email = e) : findOneV (x :: xs) e = some x := by
  unfold findOneV
  rw [List.find?_cons_of_pos]
  simp [h]

theorem findOneV_cons_neg (x : VRecord) (xs : List VRecord) (e : String)
    (h : ¬ x.email = e) : findOneV (x :: xs) e = findOneV xs e := by
  unfold findOneV
  rw [List.find?_cons_of_neg]
  simp [h]

/-- The upsert makes its record the one found for its key. -/
theorem findOneV_updateOneUpsertV (s : List VRecord) (e : String) (r : VRecord)
    (h : r.email = e) : findOneV (updateOneUpsertV s e r) e = some r := by
  induction s with
  | nil => simpa [updateOneUpsertV] using findOneV_cons_pos r [] e h
  | cons x xs ih =>
    by_cases hx : x.email = e
    · simp only [updateOneUpsertV, beq_iff_eq, hx, if_true]
      exact findOneV_cons_pos r xs e h
    · simp only [updateOneUpsertV, beq_iff_eq, hx, if_false]
      rw [findOneV_cons_neg x _ e hx]
      exact ih

/-- A first match that survives a filter is still the first match. -/
theorem findOneV_filter (s : List VRecord) (e : String) (r : VRecord)
    (p : VRecord → Bool) (hfind : findOneV s e = some r) (hp : p r = true) :
    findOneV (s.filter p) e = some r := by
  induction s with
  | nil => simp [findOneV] at hfind
  | cons x xs ih =>
    by_cases hx : x.email = e
    · have hxr : x = r := by
        have := findOneV_cons_pos x xs e hx
        rw [this] at hfind
        exact Option.some.inj hfind
      subst hxr
      rw [List.filter_cons_of_pos hp]
      exact findOneV_cons_pos x _ e hx
    · rw [findOneV_cons_neg x xs e hx] at hfind
      by_cases hpx : p x = true
      · rw [List.filter_cons_of_pos hpx]
        rw [findOneV_cons_neg x _ e hx]
        exact ih hfind
      · rw [List.filter_cons_of_neg (by simpa using hpx)]
        exact ih hfind

theorem mem_updateOneUpsertV (s : List VRecord) (e : String) (r x : VRecord)
    (h : x ∈ updateOneUpsertV s e r) : x ∈ s ∨ x = r := by
  induction s with
  | nil => simp [updateOneUpsertV] at h; simp [h]
  | cons y ys ih =>
    by_cases hy : y.email = e
    · simp only [updateOneUpsertV, beq_iff_eq, hy, if_true] at h
      rcases List.mem_cons.mp h with h' | h'
      · right; exact h'
      · left; exact List.mem_cons_of_mem _ h'
    · simp only [updateOneUpsertV, beq_iff_eq, hy, if_false] at h
      rcases List.mem_cons.mp h with h' | h'
      · left; simp [h']
      · rcases ih h' with h'' | h''
        · left; exact List.mem_cons_of_mem _ h''
        · right; exact h''

/-- The upsert preserves the at-most-one-record-per-email invariant. -/
theorem uniqueEmails_updateOneUpsertV (s : List VRecord) (e : String) (r : VRecord)
    (hU : uniqueEmails s) (h : r.email = e) :
    uniqueEmails (updateOneUpsertV s e r) := by
  induction s with
  | nil => simp [updateOneUpsertV, uniqueEmails]
  | cons x xs ih =>
    rcases (List.pairwise_cons.mp hU) with ⟨hx, hxs⟩
    by_cases hxe : x.email = e
    · simp only [updateOneUpsertV, beq_iff_eq, hxe, if_true]
      refine List.pairwise_cons.mpr ⟨?_, hxs⟩
      intro b hb
      rw [h, ← hxe]
      exact hx b hb
    · simp only [updateOneUpsertV, beq_iff_eq, hxe, if_false]
      refine List.pairwise_cons.mpr ⟨?_, ih hxs⟩
      intro b hb
      rcases mem_updateOneUpsertV xs e r b hb with hb' | hb'
      · exact hx b hb'
      · subst hb'; rw [h]; exact hxe

/-- Under the uniqueness invariant, any member with the looked-up email is
the found record. -/
theorem eq_of_mem_of_uniq (s : List VRecord) (e : String) (r : VRecord)
    (hU : uniqueEmails s) (hfind : findOneV s e = some r) :
    ∀ x ∈ s, x.email = e → x = r := by
  induction s with
  | nil => simp
  | cons y ys ih =>
    rcases (List.pairwise_cons.mp hU) with ⟨hy, hys⟩
    by_cases hye : y.email = e
    · have hyr : y = r := by
        have := findOneV_cons_pos y ys e hye
        rw [this] at hfind
        exact Option.some.inj hfind
      intro x hx hxe
      rcases List.mem_cons.mp hx with h' | h'
      · rw [h', hyr]
      · exact absurd (hxe.trans hye.symm).symm (hy x h')
    · rw [findOneV_cons_neg y ys e hye] at hfind
      intro x hx hxe
      rcases List.mem_cons.mp hx with h' | h'
      · exact absurd (h' ▸ hxe) hye
      · exact ih hys hfind x h' hxe

/-- Purging removes an expired record for good: under the uniqueness
invariant no record with its email remains. -/
theorem findOneV_purge_none (s : List VRecord) (e : String) (r : VRecord)
    (hU : uniqueEmails s) (hfind : findOneV s e = some r)
    (now : Nat) (hexp : r.expires_at < now) :
    findOneV (purgeExpired s now) e = none := by
  rw [findOneV, List.find?_eq_none]
  intro x hx
  rcases List.mem_filter.mp hx with ⟨hxs, hkeep⟩
  intro hbeq
  have hxe : x.email = e := by simpa using hbeq
  have hxr : x = r := eq_of_mem_of_uniq s e r hU hfind x hxs hxe
  subst hxr
  simp [hexp] at hkeep

/-! ## Further helper lemmas -/

/-- `generate_code` yields exactly the requested number of characters. -/
theorem generate_code_length (n : Nat) (choose : Nat → Nat) :
    (generate_code n choose).length = n := by
  simp [generate_code, String.length]

/-- Whatever the mail outcome, once past the validation and configuration
checks the issuance endpoint leaves the store upserted with the fresh
record. -/
theorem issue_state (gu gp : Option String) (email : String)
    (username : Option String) (choose : Nat → Nat) (now : Nat)
    (mail : MailResult) (s : List VRecord)
    (hvalid : validate_email email = true)
    (hgu : envMissing gu = false) (hgp : envMissing gp = false) :
    (send_verification_email gu gp email username choose now mail s).2 =
      updateOneUpsertV s email
        ⟨email, generate_code 8 choose, now + 600, now⟩ := by
  cases mail <;> simp [send_verification_email, hvalid, hgu, hgp, send_email]

/-- Looking up the key of a freshly upserted, unexpired record returns that
record's payload. -/
theorem lookup_after_upsert (s : List VRecord) (email : String) (r : VRecord)
    (now : Nat) (hr : r.email = email) (hnexp : ¬ (r.expires_at < now)) :
    (get_verification_code (updateOneUpsertV s email r) email now).1 =
      Except.ok ⟨email, r.code, (r.expires_at - now) / 60, r.created_at⟩ := by
  have hfind := findOneV_updateOneUpsertV s email r hr
  have hfind' : findOneV (purgeExpired (updateOneUpsertV s email r) now) email = some r :=
    findOneV_filter _ email _ (fun x => ! decide (x.expires_at < now)) hfind
      (by simpa using hnexp)
  simp only [get_verification_code, hfind']
  rw [if_neg hnexp]

/-- The store after any `/codes/` call is exactly the globally purged store:
the race-guard `delete_one` branch is unreachable because the record that
`find_one` returns already survived the purge. -/
theorem get_verification_code_state (s : List VRecord) (email : String) (now : Nat) :
    (get_verification_code s email now).2 = purgeExpired s now := by
  unfold get_verification_code
  cases hf : findOneV (purgeExpired s now) email with
  | none => simp only [hf]
  | some v =>
    have hv : v ∈ purgeExpired s now := List.mem_of_find?_eq_some hf
    have hkeep : (! decide (v.expires_at < now)) = true := (List.mem_filter.mp hv).2
    have hnexp : ¬ (v.expires_at < now) := by simpa using hkeep
    simp only [hf, if_neg hnexp]

/-- When no record for the email survives the purge, `/codes/` answers 404. -/
theorem get_verification_code_notFound (s : List VRecord) (email : String) (now : Nat)
    (h : findOneV (purgeExpired s now) email = none) :
    (get_verification_code s email now).1 =
      Except.error ⟨404, "No verification code found for this email"⟩ := by
  unfold get_verification_code
  simp only [h]

/-- Two strings whose first characters differ are different, even when the
longer one ends in an arbitrary tail. -/
theorem string_head_ne (pre m t : String) (c : Char)
    (hp : pre.data.head? = some c) (ht : t.data.head? ≠ some c) : pre ++ m ≠ t := by
  intro h
  apply ht
  rw [← h]
  cases pre with
  | mk pd =>
    cases m with
    | mk md =>
      cases pd with
      | nil => simp at hp
      | cons a as =>
        have hac : a = c := by simpa using hp
        subst hac
        rfl

/-- Any 500 body other than the configuration message classifies as a mail
delivery failure. -/
theorem classifyError_500_ne (msg : String)
    (h : ¬ msg = "Email configuration not found") :
    classifyError 500 msg = ErrKind.mailDeliveryFailed := by
  simp [classifyError, h]

theorem findOneGame_cons_pos (x : Game) (xs : List Game) (c : String)
    (h : x.code = c) : findOneGame (x :: xs) c = some x := by
  unfold findOneGame
  rw [List.find?_cons_of_pos]
  simp [h]

theorem findOneGame_cons_neg (x : Game) (xs : List Game) (c : String)
    (h : ¬ x.code = c) : findOneGame (x :: xs) c = findOneGame xs c := by
  unfold findOneGame
  rw [List.find?_cons_of_neg]
  simp [h]

/-- After the status update, looking up the same code finds the first
matching game with its status set to `"ended"`. -/
theorem findOneGame_setStatusEnded (gs : List Game) (c : String) (g : Game)
    (h : findOneGame gs c = some g) :
    findOneGame (setStatusEnded gs c) c = some { g with status := "ended" } := by
  induction gs with
  | nil => simp [findOneGame] at h
  | cons x xs ih =>
    by_cases hx : x.code = c
    · have hxg : x = g := by
        have := findOneGame_cons_pos x xs c hx
        rw [this] at h
        exact Option.some.inj h
      subst hxg
      have hb : (x.code == c) = true := by simp [hx]
      simp only [setStatusEnded, hb, if_true]
      exact findOneGame_cons_pos _ xs c hx
    · rw [findOneGame_cons_neg x xs c hx] at h
      simp only [setStatusEnded, beq_iff_eq, hx, if_false]
      rw [findOneGame_cons_neg _ _ c hx]
      exact ih h

theorem findRosterDoc_cons_pos (x : Roster) (xs : List Roster) (u : String)
    (h : x.username = u) : findRosterDoc (x :: xs) u = some x := by
  unfold findRosterDoc
  rw [List.find?_cons_of_pos]
  simp [h]

theorem findRosterDoc_cons_neg (x : Roster) (xs : List Roster) (u : String)
    (h : ¬ x.username = u) : findRosterDoc (x :: xs) u = findRosterDoc xs u := by
  unfold findRosterDoc
  rw [List.find?_cons_of_neg]
  simp [h]

/-- The `$pull` removes, from the roster read back for the same username,
exactly the creatures whose name matches. -/
theorem rosterOf_pullByName (rs : List Roster) (u name : String) :
    rosterOf (pullByName rs u name) u =
      (rosterOf rs u).filter (fun p => !(p.name == name)) := by
  induction rs with
  | nil => simp [pullByName, rosterOf, findRosterDoc]
  | cons r rs ih =>
    by_cases hr : r.username = u
    · have hb : (r.username == u) = true := by simp [hr]
      simp [rosterOf, findRosterDoc, pullByName, hb, List.find?_cons]
    · have hb : (r.username == u) = false := by simp [hr]
      simpa [rosterOf, findRosterDoc, pullByName, hb, List.find?_cons] using ih

/-- Without a matching roster document, the pull update touches nothing. -/
theorem pullByName_no_doc (rs : List Roster) (u name : String)
    (h : findRosterDoc rs u = none) : pullByName rs u name = rs := by
  induction rs with
  | nil => simp [pullByName]
  | cons r rs ih =>
    by_cases hr : r.username = u
    · rw [findRosterDoc_cons_pos _ _ u hr] at h
      simp at h
    · rw [findRosterDoc_cons_neg _ _ u hr] at h
      simp only [pullByName, beq_iff_eq, hr, if_false]
      rw [ih h]

/-- When no creature of the matched roster has the name, the pull update is
the identity on the whole collection. -/
theorem pullByName_no_match (rs : List Roster) (u name : String) (doc : Roster)
    (h : findRosterDoc rs u = some doc)
    (hnm : ∀ p ∈ doc.pokemons, ¬ p.name = name) :
    pullByName rs u name = rs := by
  induction rs with
  | nil => simp [findRosterDoc] at h
  | cons r rs ih =>
    by_cases hr : r.username = u
    · have hrd : r = doc := by
        have := findRosterDoc_cons_pos r rs u hr
        rw [this] at h
        exact Option.some.inj h
      subst hrd
      have hb : (r.username == u) = true := by simp [hr]
      simp only [pullByName, hb, if_true]
      have hflt : r.pokemons.filter (fun p => !(p.name == name)) = r.pokemons := by
        apply List.filter_eq_self.mpr
        intro p hp
        simp [hnm p hp]
      rw [hflt]
    · rw [findRosterDoc_cons_neg _ _ u hr] at h
      simp only [pullByName, beq_iff_eq, hr, if_false]
      rw [ih h]

/-! ## Claims -/

/-- C1: for every valid email, with mail configuration present and a
successful send, `IssueCode` (the `/send-verification-email` handler)
followed immediately by `LookupCode` (`/codes/`) at the same instant
returns exactly the 8-character code that was stored, with
`expires_in_minutes = 10`. -/
theorem issueCode_then_lookupCode (gu gp : Option String) (email : String)
    (username : Option String) (choose : Nat → Nat) (now : Nat) (s : List VRecord)
    (hvalid : validate_email email = true)
    (hgu : envMissing gu = false) (hgp : envMissing gp = false) :
    (generate_code 8 choose).length = 8 ∧
    (send_verification_email gu gp email username choose now MailResult.ok s).1 =
      VResponse.success email 10 ∧
    (get_verification_code
        (send_verification_email gu gp email username choose now MailResult.ok s).2
        email now).1 =
      Except.ok ⟨email, generate_code 8 choose, 10, now⟩ := by
  refine ⟨generate_code_length 8 choose, ?_, ?_⟩
  · simp [send_verification_email, hvalid, hgu, hgp, send_email]
  · rw [issue_state gu gp email username choose now MailResult.ok s hvalid hgu hgp]
    have h := lookup_after_upsert s email
      ⟨email, generate_code 8 choose, now + 600, now⟩ now rfl (by simp)
    simpa [Nat.add_sub_cancel_left] using h

/-- Witness for C1: a concrete issue-then-lookup round trip. -/
theorem issueCode_then_lookupCode_witness :
    validate_email "ash@pallet.town" = true ∧
    (generate_code 8 (fun _ => 0)).length = 8 ∧
    (send_verification_email (some "mail") (some "pw") "ash@pallet.town" none
        (fun _ => 0) 0 MailResult.ok []).1 =
      VResponse.success "ash@pallet.town" 10 ∧
    (get_verification_code
        (send_verification_email (some "mail") (some "pw") "ash@pallet.town" none
          (fun _ => 0) 0 MailResult.ok []).2
        "ash@pallet.town" 0).1 =
      Except.ok ⟨"ash@pallet.town", generate_code 8 (fun _ => 0), 10, 0⟩ :=
  ⟨rfl, issueCode_then_lookupCode (some "mail") (some "pw") "ash@pallet.town" none
    (fun _ => 0) 0 [] rfl rfl rfl⟩

/-- C2: issuing a second code for the same email fully replaces the first
record, whatever the two mail outcomes and instants: the store keeps at
most one record per email, and a subsequent lookup returns only the second
code. -/
theorem issueCode_twice_replaces (gu gp : Option String) (email : String)
    (u1 u2 : Option String) (c1 c2 : Nat → Nat) (t1 t2 : Nat)
    (m1 m2 : MailResult) (s : List VRecord)
    (hU : uniqueEmails s)
    (hvalid : validate_email email = true)
    (hgu : envMissing gu = false) (hgp : envMissing gp = false) :
    uniqueEmails (send_verification_email gu gp email u1 c1 t1 m1 s).2 ∧
    uniqueEmails (send_verification_email gu gp email u2 c2 t2 m2
      (send_verification_email gu gp email u1 c1 t1 m1 s).2).2 ∧
    findOneV (send_verification_email gu gp email u2 c2 t2 m2
        (send_verification_email gu gp email u1 c1 t1 m1 s).2).2 email =
      some ⟨email, generate_code 8 c2, t2 + 600, t2⟩ ∧
    (get_verification_code (send_verification_email gu gp email u2 c2 t2 m2
        (send_verification_email gu gp email u1 c1 t1 m1 s).2).2 email t2).1 =
      Except.ok ⟨email, generate_code 8 c2, 10, t2⟩ := by
  have h1 := issue_state gu gp email u1 c1 t1 m1 s hvalid hgu hgp
  have h2 := issue_state gu gp email u2 c2 t2 m2
    (send_verification_email gu gp email u1 c1 t1 m1 s).2 hvalid hgu hgp
  rw [h1] at h2 ⊢
  rw [h2]
  have hU1 : uniqueEmails (updateOneUpsertV s email
      ⟨email, generate_code 8 c1, t1 + 600, t1⟩) :=
    uniqueEmails_updateOneUpsertV s email _ hU rfl
  have hU2 : uniqueEmails (updateOneUpsertV _ email
      ⟨email, generate_code 8 c2, t2 + 600, t2⟩) :=
    uniqueEmails_updateOneUpsertV _ email _ hU1 rfl
  refine ⟨hU1, hU2, findOneV_updateOneUpsertV _ _ _ rfl, ?_⟩
  have h := lookup_after_upsert
    (updateOneUpsertV s email ⟨email, generate_code 8 c1, t1 + 600, t1⟩) email
    ⟨email, generate_code 8 c2, t2 + 600, t2⟩ t2 rfl (by simp)
  simpa [Nat.add_sub_cancel_left] using h

/-- Witness for C2: two concrete issuances followed by a lookup. -/
theorem issueCode_twice_replaces_witness :
    uniqueEmails (send_verification_email (some "mail") (some "pw") "ash@pallet.town"
      none (fun _ => 0) 0 MailResult.ok []).2 ∧
    uniqueEmails (send_verification_email (some "mail") (some "pw") "ash@pallet.town"
      none (fun _ => 1) 5 MailResult.ok
      (send_verification_email (some "mail") (some "pw") "ash@pallet.town"
        none (fun _ => 0) 0 MailResult.ok []).2).2 ∧
    findOneV (send_verification_email (some "mail") (some "pw") "ash@pallet.town"
        none (fun _ => 1) 5 MailResult.ok
        (send_verification_email (some "mail") (some "pw") "ash@pallet.town"
          none (fun _ => 0) 0 MailResult.ok []).2).2 "ash@pallet.town" =
      some ⟨"ash@pallet.town", generate_code 8 (fun _ => 1), 605, 5⟩ ∧
    (get_verification_code (send_verification_email (some "mail") (some "pw")
        "ash@pallet.town" none (fun _ => 1) 5 MailResult.ok
        (send_verification_email (some "mail") (some "pw") "ash@pallet.town"
          none (fun _ => 0) 0 MailResult.ok []).2).2 "ash@pallet.town" 5).1 =
      Except.ok ⟨"ash@pallet.town", generate_code 8 (fun _ => 1), 10, 5⟩ :=
  issueCode_twice_replaces (some "mail") (some "pw") "ash@pallet.town" none none
    (fun _ => 0) (fun _ => 1) 0 5 MailResult.ok MailResult.ok []
    (by simp [uniqueEmails]) rfl rfl rfl

/-- C3: a lookup for an email whose stored record has already expired never
returns the code: the global purge removes the record first, the handler
answers 404 (`NotFound`), and afterwards no record for that email remains
in the store. -/
theorem lookupCode_expired_unreachable (s : List VRecord) (email : String)
    (now : Nat) (r : VRecord) (hU : uniqueEmails s)
    (hfind : findOneV s email = some r)
    (hexp : r.expires_at < now) :
    (get_verification_code s email now).1 =
      Except.error ⟨404, "No verification code found for this email"⟩ ∧
    (∀ x ∈ (get_verification_code s email now).2, x.email ≠ email) := by
  have hnone := findOneV_purge_none s email r hU hfind now hexp
  refine ⟨get_verification_code_notFound s email now hnone, ?_⟩
  intro x hx hxe
  rw [get_verification_code_state] at hx
  have hne : findOneV (purgeExpired s now) email ≠ none := by
    rw [findOneV]
    intro hcon
    rw [List.find?_eq_none] at hcon
    exact hcon x hx (by simpa using hxe)
  exact hne hnone

/-- Witness for C3: a concrete expired record is unreachable. -/
theorem lookupCode_expired_unreachable_witness :
    (get_verification_code [⟨"gary@oak.lab", "OLDCODEX", 10, 0⟩]
        "gary@oak.lab" 11).1 =
      Except.error ⟨404, "No verification code found for this email"⟩ :=
  (lookupCode_expired_unreachable [⟨"gary@oak.lab", "OLDCODEX", 10, 0⟩]
    "gary@oak.lab" 11 ⟨"gary@oak.lab", "OLDCODEX", 10, 0⟩
    (by simp [uniqueEmails]) rfl (by decide)).1

/-- C4: every `/codes/` call leaves the store exactly globally purged of
the records expired at call time (for any email, including ones with no
record), and when no record for the requested email survives the purge it
answers 404 with the store otherwise unchanged. -/
theorem lookupCode_global_purge_then_notFound (s : List VRecord)
    (email : String) (now : Nat) :
    (get_verification_code s email now).2 = purgeExpired s now ∧
    (findOneV (purgeExpired s now) email = none →
      (get_verification_code s email now).1 =
        Except.error ⟨404, "No verification code found for this email"⟩) :=
  ⟨get_verification_code_state s email now,
   fun h => get_verification_code_notFound s email now h⟩

/-- Witness for C4: a lookup for an absent email purges another email's
expired record and answers 404. -/
theorem lookupCode_global_purge_then_notFound_witness :
    (get_verification_code [⟨"misty@cerulean.gym", "WATERGYM", 3, 0⟩]
        "ash@pallet.town" 7).2 =
      purgeExpired [⟨"misty@cerulean.gym", "WATERGYM", 3, 0⟩] 7 ∧
    (get_verification_code [⟨"misty@cerulean.gym", "WATERGYM", 3, 0⟩]
        "ash@pallet.town" 7).1 =
      Except.error ⟨404, "No verification code found for this email"⟩ :=
  ⟨(lookupCode_global_purge_then_notFound
      [⟨"misty@cerulean.gym", "WATERGYM", 3, 0⟩] "ash@pallet.town" 7).1,
   (lookupCode_global_purge_then_notFound
      [⟨"misty@cerulean.gym", "WATERGYM", 3, 0⟩] "ash@pallet.town" 7).2 rfl⟩

/-- C5: past the validation and configuration checks, the verification
record is upserted before the mail send, so when the mail sender fails
(authentication or transport fault) the endpoint reports a 500
mail-delivery failure while the freshly written record stays in the
store. -/
theorem issueCode_mail_failure_retains_record (gu gp : Option String)
    (email : String) (username : Option String) (choose : Nat → Nat)
    (now : Nat) (mail : MailResult) (s : List VRecord)
    (hvalid : validate_email email = true)
    (hgu : envMissing gu = false) (hgp : envMissing gp = false)
    (hmail : mail ≠ MailResult.ok) :
    (send_verification_email gu gp email username choose now mail s).2 =
      updateOneUpsertV s email ⟨email, generate_code 8 choose, now + 600, now⟩ ∧
    respKind (send_verification_email gu gp email username choose now mail s).1 =
      RespKind.failure ErrKind.mailDeliveryFailed 500 ∧
    findOneV (send_verification_email gu gp email username choose now mail s).2 email =
      some ⟨email, generate_code 8 choose, now + 600, now⟩ := by
  have hstate := issue_state gu gp email username choose now mail s hvalid hgu hgp
  refine ⟨hstate, ?_, by rw [hstate]; exact findOneV_updateOneUpsertV _ _ _ rfl⟩
  cases mail with
  | ok => exact absurd rfl hmail
  | authError =>
    simp only [send_verification_email, hvalid, hgu, hgp, send_email]
    norm_num [respKind]
    decide
  | smtpError m =>
    simp only [send_verification_email, hvalid, hgu, hgp, send_email]
    norm_num [respKind]
    apply classifyError_500_ne
    rw [show ("Unexpected error: " ++ toString (500:Nat) ++ ": " ++
        ("Failed to send email: " ++ m)) =
      ("Unexpected error: " ++ toString (500:Nat) ++ ": " ++
        "Failed to send email: ") ++ m from (String.append_assoc _ _ _).symm]
    exact string_head_ne _ _ _ 'U' rfl (by decide)

/-- Witness for C5: an authentication failure still leaves the fresh
record behind. -/
theorem issueCode_mail_failure_retains_record_witness :
    (send_verification_email (some "mail") (some "pw") "ash@pallet.town" none
        (fun _ => 0) 0 MailResult.authError []).2 =
      updateOneUpsertV [] "ash@pallet.town"
        ⟨"ash@pallet.town", generate_code 8 (fun _ => 0), 600, 0⟩ ∧
    respKind (send_verification_email (some "mail") (some "pw") "ash@pallet.town"
        none (fun _ => 0) 0 MailResult.authError []).1 =
      RespKind.failure ErrKind.mailDeliveryFailed 500 ∧
    findOneV (send_verification_email (some "mail") (some "pw") "ash@pallet.town"
        none (fun _ => 0) 0 MailResult.authError []).2 "ash@pallet.town" =
      some ⟨"ash@pallet.town", generate_code 8 (fun _ => 0), 600, 0⟩ := by
  have h := issueCode_mail_failure_retains_record (some "mail") (some "pw")
    "ash@pallet.town" none (fun _ => 0) 0 MailResult.authError [] rfl rfl rfl
    (by decide)
  simpa using h

/-- C6: `/end_game` answers 404 exactly when no game with the code exists;
otherwise it unconditionally sets the game's status to `"ended"` (so a
repeated call still succeeds), and with `show_pokemon` it returns each
player's roster keyed by player identity, an empty list — never an error —
for a player without a roster document. -/
theorem endGame_spec (games : List Game) (rosters : List Roster)
    (code : String) (sp : Bool) :
    ((end_game games rosters code sp).1 = EndGameResult.notFound ↔
      findOneGame games code = none) ∧
    (∀ u, findRosterDoc rosters u = none → rosterOf rosters u = []) ∧
    (∀ g, findOneGame games code = some g →
      findOneGame (end_game games rosters code sp).2 code =
        some { g with status := "ended" } ∧
      (end_game (end_game games rosters code sp).2 rosters code sp).1 ≠
        EndGameResult.notFound ∧
      (sp = true → (end_game games rosters code sp).1 =
        EndGameResult.ended (some (g.players.map (fun u => (u, rosterOf rosters u))))) ∧
      (sp = false → (end_game games rosters code sp).1 = EndGameResult.ended none)) := by
  refine ⟨?_, ?_, ?_⟩
  · cases hf : findOneGame games code with
    | none => simp [end_game, hf]
    | some g =>
      simp only [end_game, hf]
      cases sp <;> simp
  · intro u hu
    simp [rosterOf, hu]
  · intro g hg
    have hstate : (end_game games rosters code sp).2 = setStatusEnded games code := by
      simp only [end_game, hg]
      cases sp <;> simp
    have hfind2 := findOneGame_setStatusEnded games code g hg
    refine ⟨by rw [hstate]; exact hfind2, ?_, ?_, ?_⟩
    · rw [hstate]
      simp only [end_game, hfind2]
      cases sp <;> simp
    · intro hsp
      simp [end_game, hg, hsp]
    · intro hsp
      simp [end_game, hg, hsp]

/-- Witness for C6: ending a concrete game with `show_pokemon` returns
alice's roster and an empty list for bob, and ending it again succeeds. -/
theorem endGame_spec_witness :
    (end_game [⟨"A1B2C3", ["alice", "bob"], "active"⟩]
        [⟨"alice", [⟨"Blazuma", 1, 100, 10⟩]⟩] "A1B2C3" true).1 =
      EndGameResult.ended
        (some [("alice", [⟨"Blazuma", 1, 100, 10⟩]), ("bob", [])]) ∧
    findOneGame (end_game [⟨"A1B2C3", ["alice", "bob"], "active"⟩]
        [⟨"alice", [⟨"Blazuma", 1, 100, 10⟩]⟩] "A1B2C3" true).2 "A1B2C3" =
      some ⟨"A1B2C3", ["alice", "bob"], "ended"⟩ ∧
    (end_game (end_game [⟨"A1B2C3", ["alice", "bob"], "active"⟩]
        [⟨"alice", [⟨"Blazuma", 1, 100, 10⟩]⟩] "A1B2C3" true).2
      [⟨"alice", [⟨"Blazuma", 1, 100, 10⟩]⟩] "A1B2C3" true).1 ≠
      EndGameResult.notFound := by
  have h := (endGame_spec [⟨"A1B2C3", ["alice", "bob"], "active"⟩]
    [⟨"alice", [⟨"Blazuma", 1, 100, 10⟩]⟩] "A1B2C3" true).2.2
    ⟨"A1B2C3", ["alice", "bob"], "active"⟩ rfl
  refine ⟨?_, h.1, h.2.1⟩
  rw [h.2.2.1 rfl]
  rfl

/-- C7: `/pokemons/remove` always succeeds with `"Pokemon removed"`,
removes from the matched roster every creature whose name matches (not
only the first), and is a silent no-op on the whole collection when the
roster is absent or contains no creature of that name. -/
theorem removeCreature_spec (rosters : List Roster) (u name : String) :
    (remove_pokemon rosters u name).1 = "Pokemon removed" ∧
    rosterOf (remove_pokemon rosters u name).2 u =
      (rosterOf rosters u).filter (fun p => !(p.name == name)) ∧
    (findRosterDoc rosters u = none → (remove_pokemon rosters u name).2 = rosters) ∧
    (∀ doc, findRosterDoc rosters u = some doc →
      (∀ p ∈ doc.pokemons, ¬ p.name = name) →
      (remove_pokemon rosters u name).2 = rosters) := by
  refine ⟨rfl, rosterOf_pullByName rosters u name, ?_, ?_⟩
  · intro h
    exact pullByName_no_doc rosters u name h
  · intro doc h hnm
    exact pullByName_no_match rosters u name doc h hnm

/-- Witness for C7: both creatures named "Blazuma" disappear from a
concrete roster, and removing against an empty collection changes
nothing. -/
theorem removeCreature_spec_witness :
    (remove_pokemon [⟨"ash", [⟨"Blazuma", 1, 100, 10⟩, ⟨"Pikachu", 5, 90, 30⟩,
        ⟨"Blazuma", 7, 80, 40⟩]⟩] "ash" "Blazuma").1 = "Pokemon removed" ∧
    rosterOf (remove_pokemon [⟨"ash", [⟨"Blazuma", 1, 100, 10⟩,
        ⟨"Pikachu", 5, 90, 30⟩, ⟨"Blazuma", 7, 80, 40⟩]⟩] "ash" "Blazuma").2 "ash" =
      [⟨"Pikachu", 5, 90, 30⟩] ∧
    (remove_pokemon [] "ash" "Blazuma").2 = [] := by
  have h := removeCreature_spec [⟨"ash", [⟨"Blazuma", 1, 100, 10⟩,
    ⟨"Pikachu", 5, 90, 30⟩, ⟨"Blazuma", 7, 80, 40⟩]⟩] "ash" "Blazuma"
  refine ⟨h.1, ?_, (removeCreature_spec [] "ash" "Blazuma").2.2.1 rfl⟩
  rw [h.2.1]
  rfl

/-- C8: `/signup` checks the email first and short-circuits (a duplicate
email wins even when the username is also taken), then the username; on
success it appends the submitted record verbatim, the password included
unchanged. -/
theorem signup_spec (users : List Account) (d : Account) :
    ((users.find? (fun u => u.email == d.email)).isSome = true →
      signup users d = (SignupResponse.failure 400 "Email already exists", users)) ∧
    ((users.find? (fun u => u.email == d.email)).isSome = false →
      (users.find? (fun u => u.username == d.username)).isSome = true →
      signup users d = (SignupResponse.failure 400 "Username already exists", users)) ∧
    ((users.find? (fun u => u.email == d.email)).isSome = false →
      (users.find? (fun u => u.username == d.username)).isSome = false →
      signup users d = (SignupResponse.ok "Signup successful", users ++ [d])) := by
  refine ⟨?_, ?_, ?_⟩
  · intro h
    simp [signup, h]
  · intro h1 h2
    simp [signup, h1, h2]
  · intro h1 h2
    simp [signup, h1, h2]

/-- Witness for C8: a fresh signup inserts the record verbatim (plaintext
password included) and a second signup with the same email but a different
username fails with the email error. -/
theorem signup_spec_witness :
    signup [] ⟨"red@kanto.region", "red", "hunter2", "m"⟩ =
      (SignupResponse.ok "Signup successful",
        [⟨"red@kanto.region", "red", "hunter2", "m"⟩]) ∧
    signup [⟨"red@kanto.region", "red", "hunter2", "m"⟩]
        ⟨"red@kanto.region", "red", "other", "m"⟩ =
      (SignupResponse.failure 400 "Email already exists",
        [⟨"red@kanto.region", "red", "hunter2", "m"⟩]) :=
  ⟨(signup_spec [] ⟨"red@kanto.region", "red", "hunter2", "m"⟩).2.2 rfl rfl,
   (signup_spec [⟨"red@kanto.region", "red", "hunter2", "m"⟩]
      ⟨"red@kanto.region", "red", "other", "m"⟩).1 rfl⟩

/-- C9: for every decoded request (string email, optional string username)
and identical generated code, instant, configuration, and mail outcome, the
two issuance endpoints produce the same classified result (success payload,
or failure kind and status) and leave the verification store in the same
state. -/
theorem issuance_endpoints_equivalent (gu gp : Option String) (email : String)
    (username : Option String) (choose : Nat → Nat) (now : Nat)
    (mail : MailResult) (s : List VRecord) :
    respKind (send_verification_email gu gp email username choose now mail s).1 =
      respKind (send_verification_email_v2 gu gp email username choose now mail s).1 ∧
    (send_verification_email gu gp email username choose now mail s).2 =
      (send_verification_email_v2 gu gp email username choose now mail s).2 := by
  by_cases hv : validate_email email = false
  · simp [send_verification_email, send_verification_email_v2, hv]
  · by_cases hc : (envMissing gu || envMissing gp) = true
    · simp [send_verification_email, send_verification_email_v2, hv, hc]
    · cases mail with
      | ok =>
        simp [send_verification_email, send_verification_email_v2, hv, hc, send_email]
      | authError =>
        simp only [send_verification_email, send_verification_email_v2, hv, hc,
          send_email, Bool.false_eq_true, if_false]
        refine ⟨?_, rfl⟩
        norm_num [respKind]
        decide
      | smtpError m =>
        simp only [send_verification_email, send_verification_email_v2, hv, hc,
          send_email, Bool.false_eq_true, if_false]
        refine ⟨?_, rfl⟩
        norm_num [respKind]
        have h1 : classifyError 500 ("Unexpected error: " ++ toString (500:Nat) ++
            ": " ++ ("Failed to send email: " ++ m)) = ErrKind.mailDeliveryFailed := by
          apply classifyError_500_ne
          rw [show ("Unexpected error: " ++ toString (500:Nat) ++ ": " ++
              ("Failed to send email: " ++ m)) =
            ("Unexpected error: " ++ toString (500:Nat) ++ ": " ++
              "Failed to send email: ") ++ m from (String.append_assoc _ _ _).symm]
          exact string_head_ne _ _ _ 'U' rfl (by decide)
        have h2 : classifyError 500 ("Failed to send email: " ++ m) =
            ErrKind.mailDeliveryFailed := by
          apply classifyError_500_ne
          exact string_head_ne _ _ _ 'F' rfl (by decide)
        rw [h1, h2]

/-- C10: when the mail configuration is missing, both issuance endpoints
leave the verification collection exactly as it was (no prior code is
invalidated), never succeed, and — for a valid email, where the
configuration check is reached — classify as `ConfigurationMissing` with
status 500. -/
theorem configMissing_leaves_store_unchanged (gu gp : Option String)
    (email : String) (username : Option String) (choose : Nat → Nat)
    (now : Nat) (mail : MailResult) (s : List VRecord)
    (hmiss : envMissing gu = true ∨ envMissing gp = true) :
    (send_verification_email gu gp email username choose now mail s).2 = s ∧
    isSuccess (send_verification_email gu gp email username choose now mail s).1 = false ∧
    (validate_email email = true →
      respKind (send_verification_email gu gp email username choose now mail s).1 =
        RespKind.failure ErrKind.configurationMissing 500) ∧
    (send_verification_email_v2 gu gp email username choose now mail s).2 = s ∧
    isSuccess (send_verification_email_v2 gu gp email username choose now mail s).1 = false ∧
    (validate_email email = true →
      respKind (send_verification_email_v2 gu gp email username choose now mail s).1 =
        RespKind.failure ErrKind.configurationMissing 500) := by
  have hc : (envMissing gu || envMissing gp) = true := by
    rcases hmiss with h | h <;> simp [h]
  by_cases hv : validate_email email = false
  · simp [send_verification_email, send_verification_email_v2, hv, hc, isSuccess]
  · simp [send_verification_email, send_verification_email_v2, hv, hc, isSuccess,
      respKind, classifyError]

/-- Witness for C10: with `GMAIL_USER` unset, a prior record for the same
email survives an issuance attempt untouched. -/
theorem configMissing_leaves_store_unchanged_witness :
    (send_verification_email none (some "pw") "ash@pallet.town" none
        (fun _ => 0) 5 MailResult.ok
        [⟨"ash@pallet.town", "PRIOR123", 600, 0⟩]).2 =
      [⟨"ash@pallet.town", "PRIOR123", 600, 0⟩] ∧
    respKind (send_verification_email none (some "pw") "ash@pallet.town" none
        (fun _ => 0) 5 MailResult.ok
        [⟨"ash@pallet.town", "PRIOR123", 600, 0⟩]).1 =
      RespKind.failure ErrKind.configurationMissing 500 := by
  have h := configMissing_leaves_store_unchanged none (some "pw") "ash@pallet.town"
    none (fun _ => 0) 5 MailResult.ok [⟨"ash@pallet.town", "PRIOR123", 600, 0⟩]
    (Or.inl rfl)
  exact ⟨h.1, h.2.2.1 rfl⟩

end Minimon
